import Mathlib

/-!
Shallow embedding of the core of `binstar_client/__init__.py` (the `Binstar`
client class): response classification, domain normalization, the three-phase
upload protocol, the download resolver, and a handful of representative
operations.  HTTP transport is modelled by passing the responses the server
would produce as explicit inputs; every network send is recorded in a request
trace so that ordering and routing properties can be stated.  Python
exceptions become an explicit error type: `errors.BinstarError` and its
subclasses are `PyError.api`, and the non-API exceptions the code can raise
(`UnboundLocalError`, `xml.etree` parse errors, `AttributeError`, `KeyError`)
are separate constructors.
-/

namespace BinstarClient

/-! ### Strings

Python string primitives used by the source, defined over `String.data` so
that they both compute and admit list-level reasoning.  `startsWithStr s p`
is Python `s.startswith(p)`; `strEndsWith s p` is `s.endswith(p)`;
`strDropLast s` is `s[:-1]`. -/

def startsWithStr (s p : String) : Bool := p.data.isPrefixOf s.data

def strEndsWith (s p : String) : Bool := p.data.isSuffixOf s.data

def strDropLast (s : String) : String := String.mk s.data.dropLast

/-! ### Percent-encoding

`six.moves.urllib.parse.quote` with its default safe set (unreserved
characters plus the path separator).  Multi-byte UTF-8 expansion of
non-ASCII characters is a detail of the external urllib collaborator; the
embedding encodes each scalar's low byte, which agrees with urllib on all
ASCII inputs. -/

def quoteSafe (c : Char) : Bool :=
  c.isAlphanum || c == '-' || c == '.' || c == '_' || c == '~' || c == '/'

def hexDigit (n : Nat) : Char :=
  if n < 10 then Char.ofNat (48 + n) else Char.ofNat (55 + n)

def quote (s : String) : String :=
  String.mk ((s.data.map (fun c =>
    if quoteSafe c then [c]
    else ['%', hexDigit (c.toNat / 16 % 16), hexDigit (c.toNat % 16)])).flatten)

/-! ### Error taxonomy

`errors.BinstarError` and its subclasses (`errors.py` of this repository).
An error value carries the message and, when raised by `_check_response` or
the upload storage check, the originating HTTP status code; the
connectivity-failure `ServerError` raised by `check_server` has no status. -/

inductive ErrVariant
  | unauthorized
  | notFound
  | conflict
  | serverError
  | binstarError
deriving DecidableEq, Repr

structure ApiErr where
  variant : ErrVariant
  msg : String
  status : Option Nat
deriving DecidableEq, Repr

/-- Python exceptions observable from the embedded methods: typed API errors
(`errors.BinstarError` and subclasses) and the plain Python exceptions the
source can raise on its own. -/
inductive PyError
  | api (e : ApiErr)
  | unboundLocal (name : String)
  | xmlParseError
  | attributeError
  | keyError (k : String)
deriving DecidableEq, Repr

/-! ### HTTP model -/

/-- Characterisation of a response body as the error-message probe of
`_check_response` (lines 210-215) sees it: `res.json()` raises — the bare
`except: pass` keeps the default message; or it returns a valid JSON value
that is not an object — `data.get('error', msg)` then raises an uncaught
`AttributeError`, since line 215 sits in the `else` clause outside the
handler's protection; or it returns an object, whose optional `error` field
is recorded. -/
inductive JsonBody
  | notJson
  | jsonNonObject
  | jsonObject (err : Option String)
deriving DecidableEq, Repr

/-- The parts of a `requests` response that `_check_response` and the
operations inspect: the status code, the response headers, the decoded-body
characterisation, and the request method/url echoed into default error
messages. -/
structure HttpResponse where
  status : Nat
  headers : List (String × String)
  body : JsonBody
  reqMethod : String
  reqUrl : String
deriving DecidableEq, Repr

/-- Header lookup (`res.headers.get(k)` / `k in res.headers`); the
case-insensitivity of the transport's header dict is an external detail and
the embedding uses exact keys. -/
def lookupHeader (hs : List (String × String)) (k : String) : Option String :=
  (hs.find? (fun p => p.fst == k)).map Prod.snd

/-- Whether to route through the authenticated session or through a bare
`requests` call that carries none of the session's headers. -/
inductive Target
  | session
  | plainRequests
deriving DecidableEq, Repr

/-- Values stored in the storage form-field map: the server-supplied fields
are strings, `Content-Length` is set to an integer. -/
inductive FormVal
  | str (s : String)
  | nat (n : Nat)
deriving DecidableEq, Repr

/-- One network send, as recorded in an operation's trace: its routing
target, HTTP method, url, the per-request headers passed explicitly, whether
redirects are followed automatically (the `requests` default is true),
whether the response is streamed, the multipart form fields (storage
transfer), and the JSON payload fields the claims inspect. -/
structure Req where
  target : Target
  method : String
  url : String
  headers : List (String × String)
  allowRedirects : Bool
  stream : Bool
  formData : List (String × FormVal)
  payloadDistId : Option String
  payloadSha256 : Option String
deriving DecidableEq, Repr

def mkReq (tgt : Target) (method url : String) : Req :=
  ⟨tgt, method, url, [], true, false, [], none, none⟩

/-- The client session state the claims depend on: the normalized base
endpoint and the one-shot token-warning flag (`Binstar.__init__`). -/
structure Client where
  domain : String
  token_warning_sent : Bool
deriving DecidableEq, Repr

/-! ### Domain normalization (`Binstar.__init__`, lines 57-61) -/

/-- Lines 57-58: `if domain.endswith('/'): domain = domain[:-1]`. -/
def stripTrailingSlash (domain : String) : String :=
  if strEndsWith domain "/" then strDropLast domain else domain

/-- Lines 57-61 of `Binstar.__init__`: strip one trailing separator, then
prepend a scheme when none of `http://`, `https://` is present. -/
def normalizeDomain (domain : String) : String :=
  let d := stripTrailingSlash domain
  if startsWithStr d "http://" || startsWithStr d "https://" then d
  else "https://" ++ d

/-! ### Response classification (`Binstar._check_response`, lines 190-227) -/

/-- Modelled from the spec: the client's own version string
(`__about__.__version__`, which is not under `src/`); a representative
constant, used only in the version-skew comparison. -/
def clientVersion : String := "1.0.0"

/-- Split a character list at every occurrence of the separator character. -/
def splitChar (sep : Char) : List Char → List (List Char)
  | [] => [[]]
  | c :: cs =>
    let r := splitChar sep cs
    if c = sep then [] :: r
    else match r with
      | [] => [[c]]
      | h :: t => (c :: h) :: t

/-- The numeric value of an all-digit character list, zero otherwise. -/
def charsToNat (l : List Char) : Nat :=
  if l ≠ [] ∧ l.all (fun c => c.isDigit)
  then l.foldl (fun acc c => acc * 10 + (c.toNat - 48)) 0 else 0

/-- Modelled from the spec: `pkg_resources.parse_version` applied to the
dotted version strings exchanged in the version header — parsed as the list
of numeric components. -/
def parseVer (s : String) : List Nat :=
  (splitChar '.' s.data).map charsToNat

/-- Modelled from the spec: the semantic-version strict comparison
`parse_version a > parse_version b`; a missing component counts as zero. -/
def verGt : List Nat → List Nat → Bool
  | _ :: _, [] => true
  | [], _ => false
  | x :: xs, y :: ys => if x > y then true else if x < y then false else verGt xs ys

/-- Modelled from the spec: the static status-code-to-description table
(`utils/http_codes.STATUS_CODES`, not under `src/`); §4.1 fixes only its
shape — a static table with fallback `('?', 'Undefined error')`.  These are
representative entries; no claim depends on the table's contents. -/
def STATUS_CODES : List (Nat × String × String) := [
  (400, ("BAD REQUEST", "The request could not be understood by the server")),
  (401, ("UNAUTHORIZED", "The request requires user authentication")),
  (403, ("FORBIDDEN", "The server understood the request, but is refusing to fulfill it")),
  (404, ("NOT FOUND", "The server has not found anything matching the request")),
  (409, ("CONFLICT", "The request could not be completed due to a conflict")),
  (500, ("INTERNAL SERVER ERROR", "The server encountered an unexpected condition")),
  (503, ("SERVICE UNAVAILABLE", "The server is currently unable to handle the request"))]

/-- Line 207-208: the default short/long message pair and its formatting. -/
def defaultMsg (res : HttpResponse) : String :=
  let p := (STATUS_CODES.lookup res.status).getD ("?", "Undefined error")
  p.1 ++ ": " ++ p.2 ++ " ([" ++ res.reqMethod ++ "] " ++ res.reqUrl ++ " -> "
    ++ toString res.status ++ ")"

/-- Lines 217-225: the status-code-to-error-class chain. -/
def errCls (status : Nat) : ErrVariant :=
  if status == 401 then .unauthorized
  else if status == 404 then .notFound
  else if status == 409 then .conflict
  else if status ≥ 500 then .serverError
  else .binstarError

/-- The message attached to a classification failure (lines 207-215): the
body's `error` field when the body is an object carrying one, the default
message otherwise. -/
def errorMsg (res : HttpResponse) : String :=
  match res.body with
  | .jsonObject (some e) => e
  | _ => defaultMsg res

/-- What `_check_response` raises on a disallowed status (lines 206-227):
for a valid-JSON non-object body, the uncaught `AttributeError` of line 215;
otherwise the typed error selected by `errCls` with the status attached. -/
def classifyFail (res : HttpResponse) : PyError :=
  match res.body with
  | .jsonNonObject => .attributeError
  | _ => .api ⟨errCls res.status, errorMsg res, some res.status⟩

/-- The non-fatal warnings `_check_response` can log. -/
inductive Warning
  | versionSkew
  | tokenWarning
  | lockdown
  | readOnly
deriving DecidableEq, Repr

def isTokenWarning : Warning → Bool
  | .tokenWarning => true
  | _ => false

/-- Whether a response carries the token-deprecation header
(`'Conda-Token-Warning' in res.headers`). -/
def hasTokenWarningHeader (res : HttpResponse) : Bool :=
  (lookupHeader res.headers "Conda-Token-Warning").isSome

/-- `Binstar._check_response(res, allowed)` (lines 190-227), with the
session's mutable `_token_warning_sent` flag passed and returned explicitly.
Returns the classification outcome — success, a typed API error, or the
uncaught `AttributeError` of line 215 — the updated flag, and the list of
warnings logged while classifying this response. -/
def checkResponse (sent : Bool) (res : HttpResponse) (allowed : List Nat) :
    Except PyError Unit × Bool × List Warning :=
  let versionW : List Warning :=
    if verGt (parseVer ((lookupHeader res.headers "x-binstar-api-version").getD "0.2.1"))
        (parseVer clientVersion)
    then [.versionSkew] else []
  let tokenPair : List Warning × Bool :=
    if !sent && hasTokenWarningHeader res then ([.tokenWarning], true) else ([], sent)
  let lockW : List Warning :=
    if (lookupHeader res.headers "X-Anaconda-Lockdown").isSome then [.lockdown] else []
  let roW : List Warning :=
    if (lookupHeader res.headers "X-Anaconda-Read-Only").isSome then [.readOnly] else []
  let result : Except PyError Unit :=
    if res.status ∈ allowed then .ok ()
    else .error (classifyFail res)
  (result, tokenPair.2, versionW ++ tokenPair.1 ++ lockW ++ roW)

/-! ### Streams and hashing -/

/-- The file object passed to `upload`: a finite, seekable byte stream.
`pos` is the current read offset (`fd.tell()`); `content.length` is the file
size reported by `os.fstat(fd.fileno()).st_size`. -/
structure ByteStream where
  content : List Nat
  pos : Nat
deriving DecidableEq, Repr

/-- A digest backend (`hashlib.md5` / `hashlib.sha256`, external): maps the
hashed bytes to the pair (hex digest, base64 digest). -/
abbrev HashAlg := List Nat → String × String

structure HashResult where
  hex : String
  b64 : String
  size : Nat
deriving DecidableEq, Repr

/-- Modelled from the spec: `utils.compute_hash` (in `utils`, not under
`src/`).  Per §4.2 it reads the stream from its current position to
end-of-stream, returns the hex digest, the base64 digest and the byte count
(the supplied size when given, otherwise the number of bytes actually read),
and leaves the stream's read position restored for the next consumer (the
upload flow reads the same handle again).  The digest computation itself is
the abstract backend `alg`. -/
def compute_hash (alg : HashAlg) (fd : ByteStream) (size : Option Nat) :
    HashResult × ByteStream :=
  let bytes := fd.content.drop fd.pos
  let d := alg bytes
  ⟨⟨d.1, d.2, size.getD bytes.length⟩, fd⟩

/-! ### Upload (`Binstar.upload`, lines 530-612) -/

/-- The decoded stage response body (`obj = res.json()` at line 573): the
secondary-storage url (`post_url`), the opaque form-field map (`form_data`)
and the distribution id echoed back on commit (`dist_id`). -/
structure StageBody where
  post_url : String
  form_data : List (String × FormVal)
  dist_id : String
deriving DecidableEq, Repr

/-- Characterisation of the storage response text (`s3res.text`) as the XML
error parser at lines 600-602 sees it: not well-formed XML
(`ET.fromstring` raises a parse error), well-formed XML whose root has no
`Code` child (`find('Code')` is `None`, so `.text` raises
`AttributeError`), or XML with a `Code` child carrying the given text. -/
inductive S3Body
  | notXml
  | xmlNoCode
  | xmlCode (code : String)
deriving DecidableEq, Repr

/-- The responses the three transport calls of one upload would produce:
the stage response (classification fields and decoded body), the storage
response (status and body text), and the commit response (classification
fields and decoded JSON body, the latter abstracted as a string). -/
structure UploadWorld where
  stage : HttpResponse
  stageBody : StageBody
  s3_status : Nat
  s3_body : S3Body
  commit : HttpResponse
  commitJson : String
deriving DecidableEq, Repr

/-- Python dict assignment `d[k] = v` on the form-field map: replace the
value when the key is present, append otherwise. -/
def setItem (d : List (String × FormVal)) (k : String) (v : FormVal) :
    List (String × FormVal) :=
  if d.any (fun p => p.fst == k) then d.map (fun p => if p.fst == k then (k, v) else p)
  else d ++ [(k, v)]

/-- The stage request (lines 550, 570-571): POST `stage/...` through the
session, carrying the SHA-256 digest in its payload. -/
def stageReq (domain login package_name release basename sha : String) : Req :=
  { mkReq .session "POST" (domain ++ "/stage/" ++ login ++ "/" ++ package_name ++ "/"
      ++ release ++ "/" ++ quote basename) with payloadSha256 := some sha }

/-- The storage request (lines 589-596): POST the multipart body with the
final form-field map to the stage-returned url, through the session exactly
when `s3url.startswith(domain)`. -/
def s3Req (domain s3url : String) (s3data : List (String × FormVal)) (sizeN : Nat)
    (b64 : String) : Req :=
  { mkReq (if startsWithStr s3url domain then Target.session else Target.plainRequests)
      "POST" s3url with
    formData := setItem (setItem s3data "Content-Length" (.nat sizeN)) "Content-MD5"
      (.str b64) }

/-- The commit request (lines 606-609): POST `commit/...` with the staged
distribution id through the session. -/
def commitReq (domain login package_name release basename distId : String) : Req :=
  { mkReq .session "POST" (domain ++ "/commit/" ++ login ++ "/" ++ package_name ++ "/"
      ++ release ++ "/" ++ quote basename) with payloadDistId := some distId }

/-- The SHA-256 digest staged at line 556: the caller's digest when
supplied, otherwise the hex digest of the stream. -/
def stageSha (algSha : HashAlg) (fd : ByteStream) (size : Option Nat)
    (sha256 : Option String) : String :=
  match sha256 with
  | some s => s
  | none => (compute_hash algSha fd size).1.hex

/-- The commit phase (lines 606-612): POST `commit/...` with the staged
distribution id through the session, classify with the default allowed set
`[200]`, and return the decoded commit body on success. -/
def uploadCommit (flag : Bool) (domain login package_name release basename : String)
    (distId commitJson : String) (commitRes : HttpResponse) (acc : List Req) :
    Except PyError String × List Req × Bool :=
  let req := commitReq domain login package_name release basename distId
  let chk := checkResponse flag commitRes [200]
  match chk.1 with
  | .error e => (.error e, acc ++ [req], chk.2.1)
  | .ok _ => (.ok commitJson, acc ++ [req], chk.2.1)

/-- The transfer phase and onwards (lines 586-612).  `b64md5` is the local
variable `b64md5` of the source: it is bound only on the `md5 is None` path,
so `none` here means the name is unbound and line 587 raises
`UnboundLocalError` before any storage request is sent.  Otherwise
`Content-Length`/`Content-MD5` are injected into the form-field map, the
storage POST goes through the authenticated session exactly when
`s3url.startswith(domain)` (line 589), a non-201 storage status is turned
into an error via the XML `Code` probe (lines 598-604), and a 201 status
proceeds to the commit phase. -/
def uploadTransfer (flag : Bool) (domain login package_name release basename : String)
    (s3url : String) (s3data : List (String × FormVal)) (b64md5 : Option String)
    (sizeN : Nat) (distId commitJson : String) (s3_status : Nat) (s3_body : S3Body)
    (commitRes : HttpResponse) (acc : List Req) :
    Except PyError String × List Req × Bool :=
  match b64md5 with
  | none => (.error (.unboundLocal "b64md5"), acc, flag)
  | some b64 =>
    let s3req := s3Req domain s3url s3data sizeN b64
    if s3_status ≠ 201 then
      match s3_body with
      | .notXml => (.error .xmlParseError, acc ++ [s3req], flag)
      | .xmlNoCode => (.error .attributeError, acc ++ [s3req], flag)
      | .xmlCode code =>
        let tail := if code == "InvalidDigest"
          then " The Content-MD5 or checksum value is not valid." else ""
        (.error (.api ⟨.binstarError, "Error uploading package!" ++ tail, some s3_status⟩),
          acc ++ [s3req], flag)
    else
      uploadCommit flag domain login package_name release basename distId commitJson
        commitRes (acc ++ [s3req])

/-- `Binstar.upload` (lines 530-612).  The stage URL embeds the
percent-encoded basename; the SHA-256 digest is taken from the caller or
computed from the stream and recorded in the stage payload; the stage
response is classified with the default allowed set; then the MD5/size
handling of lines 578-584 follows — when `md5` is supplied the local
`b64md5` stays unbound (see `uploadTransfer`), and when only `size` is
missing it is derived by seeking to the end and restoring the offset
(`fd.content.length - fd.pos` with the position unchanged).  Progress
reporting (`tqdm`) and the multipart body itself are external-transport
details not observable in the trace. -/
def upload (c : Client) (algSha algMd5 : HashAlg)
    (login package_name release basename : String) (fd : ByteStream)
    (distribution_type description : String) (md5 sha256 : Option String)
    (size : Option Nat) (w : UploadWorld) :
    Except PyError String × List Req × Bool :=
  let req0 := stageReq c.domain login package_name release basename
    (stageSha algSha fd size sha256)
  let chk := checkResponse c.token_warning_sent w.stage [200]
  match chk.1 with
  | .error e => (.error e, [req0], chk.2.1)
  | .ok _ =>
    let s3url := w.stageBody.post_url
    let s3data := w.stageBody.form_data
    match md5, size with
    | none, sz =>
      let r := compute_hash algMd5 fd sz
      uploadTransfer chk.2.1 c.domain login package_name release basename s3url s3data
        (some r.1.b64) r.1.size w.stageBody.dist_id w.commitJson w.s3_status w.s3_body
        w.commit [req0]
    | some _, none =>
      let spos := fd.pos
      uploadTransfer chk.2.1 c.domain login package_name release basename s3url s3data
        none (fd.content.length - spos) w.stageBody.dist_id w.commitJson w.s3_status
        w.s3_body w.commit [req0]
    | some _, some n =>
      uploadTransfer chk.2.1 c.domain login package_name release basename s3url s3data
        none n w.stageBody.dist_id w.commitJson w.s3_status w.s3_body w.commit [req0]

/-! ### Download (`Binstar.download`, lines 493-528) -/

/-- What a download call hands back on success: the primary response itself
(status 200), or the streamed secondary response fetched from the redirect
location (status 302); a 304 yields `none` at the call site. -/
inductive DownloadOut
  | primary
  | secondary (body : String)
deriving DecidableEq, Repr

/-- The responses the transport would produce for one download: the primary
response and, should a redirect be followed, the body of the secondary
streamed response. -/
structure DownloadWorld where
  res : HttpResponse
  res2 : String
deriving DecidableEq, Repr

/-- The initial download request (lines 507-513): a session GET carrying the
conditional-fetch header when the caller supplied a digest, with automatic
redirect following disabled. -/
def downloadReq (domain login package_name release basename : String)
    (md5 : Option String) : Req :=
  { mkReq .session "GET" (domain ++ "/download/" ++ login ++ "/" ++ package_name ++ "/"
      ++ release ++ "/" ++ basename) with
    headers := match md5 with | some m => [("ETag", m)] | none => [],
    allowRedirects := false }

/-- The follow-up request of the 302 branch (line 527): a bare streaming GET
of the redirect location, outside the session so none of the session's
headers travel with it. -/
def redirectReq (loc : String) : Req :=
  { mkReq .plainRequests "GET" loc with stream := true }

/-- `Binstar.download` (lines 493-528): conditional-fetch header from the
caller's digest, initial GET through the session with redirects disabled,
classification against `[200, 302, 304]`, then 200 ↦ the response itself,
304 ↦ `None`, 302 ↦ one bare `requests.get(location, stream=True)` outside
the session.  A 302 without a `location` header raises `KeyError`.  The
final branch mirrors Python's implicit `None` and is unreachable once
classification has passed. -/
def download (c : Client) (login package_name release basename : String)
    (md5 : Option String) (w : DownloadWorld) :
    Except PyError (Option DownloadOut) × List Req × Bool :=
  let req1 := downloadReq c.domain login package_name release basename md5
  let chk := checkResponse c.token_warning_sent w.res [200, 302, 304]
  match chk.1 with
  | .error e => (.error e, [req1], chk.2.1)
  | .ok _ =>
    if w.res.status = 200 then (.ok (some .primary), [req1], chk.2.1)
    else if w.res.status = 304 then (.ok none, [req1], chk.2.1)
    else if w.res.status = 302 then
      match lookupHeader w.res.headers "location" with
      | none => (.error (.keyError "location"), [req1], chk.2.1)
      | some loc => (.ok (some (.secondary w.res2)), [req1, redirectReq loc], chk.2.1)
    else (.ok none, [req1], chk.2.1)

/-! ### Other operations used by the claims -/

/-- `Binstar.check_server` (lines 67-82), with the transport's HEAD call
passed as an explicit outcome: `none` models a transport-level connectivity
failure (the `except Exception` branch), which is wrapped into a
`ServerError` with a fixed diagnostic chained to the cause; a reachable
server's response is classified, a `NotFound` classification is rewrapped
into the same `ServerError` (`except errors.NotFound` catches only that
class), and every other exception — typed or not — propagates unchanged. -/
def check_server (c : Client) (headResult : Option HttpResponse) :
    Except PyError Unit × Bool :=
  match headResult with
  | none =>
    (.error (.api ⟨.serverError,
      "API server not found. Please check your API url configuration.", none⟩),
      c.token_warning_sent)
  | some res =>
    let chk := checkResponse c.token_warning_sent res [200]
    match chk.1 with
    | .error (.api e) =>
      match e.variant with
      | .notFound =>
        (.error (.api ⟨.serverError,
          "API server not found. Please check your API url configuration.", none⟩), chk.2.1)
      | _ => (.error (.api e), chk.2.1)
    | .error e => (.error e, chk.2.1)
    | .ok _ => (.ok (), chk.2.1)

/-- `Binstar.authentication_type` (lines 84-92): GET `/authentication-type`,
classify, and read the `authentication_type` field of the decoded body
(`authField`; `none` models a body without that field, whose `KeyError` is
not caught).  The `except BinstarError` handler catches every typed API
error — including the classification error of a failing status — and
substitutes the fallback value `'password'`; a non-API exception from the
classifier (the line-215 `AttributeError`) is not caught and propagates. -/
def authentication_type (c : Client) (res : HttpResponse) (authField : Option String) :
    Except PyError String × List Req × Bool :=
  let url := c.domain ++ "/authentication-type"
  let req := mkReq .session "GET" url
  let chk := checkResponse c.token_warning_sent res [200]
  match chk.1 with
  | .error (.api _) => (.ok "password", [req], chk.2.1)
  | .error e => (.error e, [req], chk.2.1)
  | .ok _ =>
    match authField with
    | none => (.error (.keyError "authentication_type"), [req], chk.2.1)
    | some t => (.ok t, [req], chk.2.1)

/-- `Binstar.package` (lines 290-300), a representative plain operation:
GET, classify with the default allowed set, return the decoded body
(`body`); every classification error propagates to the caller. -/
def package (c : Client) (login package_name : String) (res : HttpResponse)
    (body : String) : Except PyError String × List Req × Bool :=
  let url := c.domain ++ "/package/" ++ login ++ "/" ++ package_name
  let req := mkReq .session "GET" url
  let chk := checkResponse c.token_warning_sent res [200]
  match chk.1 with
  | .error e => (.error e, [req], chk.2.1)
  | .ok _ => (.ok body, [req], chk.2.1)

/-- `Binstar.remove_authentication` (lines 175-188): DELETE one of three
authentication URLs (named token within an organization, named token, or
the current token), classified with allowed set `[201]`. -/
def remove_authentication (c : Client) (auth_name : Option String)
    (organization : Option String) (res : HttpResponse) :
    Except PyError Unit × List Req × Bool :=
  let url := match auth_name, organization with
    | some n, some org => c.domain ++ "/authentications/org/" ++ org ++ "/name/" ++ n
    | some n, none => c.domain ++ "/authentications/name/" ++ n
    | none, _ => c.domain ++ "/authentications"
  let req := mkReq .session "DELETE" url
  let chk := checkResponse c.token_warning_sent res [201]
  match chk.1 with
  | .error e => (.error e, [req], chk.2.1)
  | .ok _ => (.ok (), [req], chk.2.1)

/-- `Binstar.package_add_collaborator` (lines 302-306): PUT, allowed `[201]`. -/
def package_add_collaborator (c : Client) (owner package_name collaborator : String)
    (res : HttpResponse) : Except PyError Unit × List Req × Bool :=
  let url := c.domain ++ "/packages/" ++ owner ++ "/" ++ package_name
    ++ "/collaborators/" ++ collaborator
  let req := mkReq .session "PUT" url
  let chk := checkResponse c.token_warning_sent res [201]
  match chk.1 with
  | .error e => (.error e, [req], chk.2.1)
  | .ok _ => (.ok (), [req], chk.2.1)

/-- `Binstar.package_remove_collaborator` (lines 308-312): DELETE, allowed `[201]`. -/
def package_remove_collaborator (c : Client) (owner package_name collaborator : String)
    (res : HttpResponse) : Except PyError Unit × List Req × Bool :=
  let url := c.domain ++ "/packages/" ++ owner ++ "/" ++ package_name
    ++ "/collaborators/" ++ collaborator
  let req := mkReq .session "DELETE" url
  let chk := checkResponse c.token_warning_sent res [201]
  match chk.1 with
  | .error e => (.error e, [req], chk.2.1)
  | .ok _ => (.ok (), [req], chk.2.1)

/-- `Binstar.remove_package` (lines 410-416): DELETE, allowed `[201]`. -/
def remove_package (c : Client) (username package_name : String) (res : HttpResponse) :
    Except PyError Unit × List Req × Bool :=
  let url := c.domain ++ "/package/" ++ username ++ "/" ++ package_name
  let req := mkReq .session "DELETE" url
  let chk := checkResponse c.token_warning_sent res [201]
  match chk.1 with
  | .error e => (.error e, [req], chk.2.1)
  | .ok _ => (.ok (), [req], chk.2.1)

/-- `Binstar.remove_release` (lines 431-442): DELETE, allowed `[201]`. -/
def remove_release (c : Client) (username package_name version : String)
    (res : HttpResponse) : Except PyError Unit × List Req × Bool :=
  let url := c.domain ++ "/release/" ++ username ++ "/" ++ package_name ++ "/" ++ version
  let req := mkReq .session "DELETE" url
  let chk := checkResponse c.token_warning_sent res [201]
  match chk.1 with
  | .error e => (.error e, [req], chk.2.1)
  | .ok _ => (.ok (), [req], chk.2.1)

/-! ### Session sequences (for the one-shot token warning) -/

/-- The warnings logged by a sequence of classified responses on one
session, threading the one-shot `_token_warning_sent` flag; one warning list
per response. -/
def runSeq (sent : Bool) : List HttpResponse → List (List Warning)
  | [] => []
  | r :: rs =>
    let out := checkResponse sent r [200]
    out.2.2 :: runSeq out.2.1 rs

/-- For each response of a session sequence, whether the token-deprecation
warning was logged while classifying it. -/
def twFlags (sent : Bool) (rs : List HttpResponse) : List Bool :=
  (runSeq sent rs).map (fun ws => ws.any isTokenWarning)

/-! ### Spec-side definition for the routing refinement (claim on upload
routing) -/

/-- Split a character list at the first occurrence of a separator sublist,
returning the parts before and after it, or `none` when it never occurs. -/
def breakOnSub (sep : List Char) : List Char → Option (List Char × List Char)
  | [] => if sep.isPrefixOf [] then some ([], []) else none
  | x :: xs =>
    if sep.isPrefixOf (x :: xs) then some ([], (x :: xs).drop sep.length)
    else match breakOnSub sep xs with
      | some p => some (x :: p.1, p.2)
      | none => none

/-- Modelled from the spec: the origin (scheme, host, port) of a URL — the
scheme before the first `://`, the host up to the first `/` or `:` of the
authority, and the explicit port or the scheme's default — the explicit
origin comparison §9 prescribes for the storage-routing decision. -/
def origin (url : String) : Option (String × String × Nat) :=
  match breakOnSub "://".data url.data with
  | none => none
  | some sr =>
    let authority := sr.2.takeWhile (fun c => c ≠ '/')
    match breakOnSub ":".data authority with
    | none => some (String.mk sr.1, String.mk authority,
        if String.mk sr.1 == "http" then 80 else 443)
    | some hp => some (String.mk sr.1, String.mk hp.1, charsToNat hp.2)

/-- Modelled from the spec: two URLs are on the same origin when their
schemes, hosts and ports all agree. -/
def sameOrigin (a b : String) : Bool :=
  match origin a, origin b with
  | some x, some y => x == y
  | _, _ => false

/-! ### Concrete fixtures for witnesses and counterexamples -/

/-- A hash backend for concrete evaluation: digests determined by the
hashed byte list. -/
def algA : HashAlg := fun bs => ("hex" ++ toString bs.length, "b64" ++ toString bs.length)

/-- A client with the default production domain, fresh session. -/
def cC : Client := ⟨normalizeDomain "https://api.anaconda.org", false⟩

def okRes : HttpResponse := ⟨200, [], .notJson, "POST", "u"⟩

/-- A benign upload world: stage 200, storage 201, commit 200. -/
def w0 : UploadWorld :=
  ⟨okRes, ⟨"https://s3.amazonaws.com/bucket/key", [("key", .str "k1")], "d1"⟩,
    201, .xmlNoCode, okRes, "committed"⟩

/-- An upload world whose storage URL is a look-alike host: the URL string
begins with the base endpoint but lives on a different origin. -/
def w1 : UploadWorld :=
  ⟨okRes, ⟨"https://api.anaconda.org.evil.com/upload", [("key", .str "k1")], "d1"⟩,
    201, .xmlNoCode, okRes, "committed"⟩

/-- An upload world whose storage call fails with a non-XML error body. -/
def w2 : UploadWorld :=
  ⟨okRes, ⟨"https://s3.amazonaws.com/bucket/key", [("key", .str "k1")], "d1"⟩,
    403, .notXml, okRes, "committed"⟩

/-- An upload world whose storage call fails with an `InvalidDigest` XML body. -/
def w3 : UploadWorld :=
  ⟨okRes, ⟨"https://s3.amazonaws.com/bucket/key", [("key", .str "k1")], "d1"⟩,
    400, .xmlCode "InvalidDigest", okRes, "committed"⟩

def fd0 : ByteStream := ⟨[1, 2, 3], 0⟩

/-- A download world whose primary response is a 302 redirect to a CDN. -/
def wD : DownloadWorld :=
  ⟨⟨302, [("location", "https://cdn.example.com/f")], .notJson, "GET", "u"⟩, "streamed"⟩

end BinstarClient

namespace BinstarClient

theorem data_append (a b : String) : (a ++ b).data = a.data ++ b.data := by
  cases a; cases b; rfl

theorem checkResponse_fst (sent : Bool) (res : HttpResponse) (allowed : List Nat) :
    (checkResponse sent res allowed).1 =
      if res.status ∈ allowed then .ok () else .error (classifyFail res) := rfl

theorem classifyFail_not_nonObject (res : HttpResponse)
    (h : res.body ≠ JsonBody.jsonNonObject) :
    classifyFail res = .api ⟨errCls res.status, errorMsg res, some res.status⟩ := by
  rcases hb : res.body with _ | _ | err
  · simp [classifyFail, hb]
  · exact absurd hb h
  · simp [classifyFail, hb]

theorem classifyFail_nonObject (res : HttpResponse)
    (h : res.body = JsonBody.jsonNonObject) :
    classifyFail res = .attributeError := by
  simp [classifyFail, h]

theorem checkResponse_flag (sent : Bool) (res : HttpResponse) (allowed : List Nat) :
    (checkResponse sent res allowed).2.1 =
      if !sent && hasTokenWarningHeader res then true else sent := by
  simp only [checkResponse]
  split <;> rfl

/-- Counterexample to claim C1: a disallowed response (status 500, allowed
set `{200}`) whose body is valid JSON but not an object does not produce the
typed error at all — `data.get('error', msg)` at line 215 sits in the
`else` clause of the `try`, so it raises an uncaught `AttributeError`
instead. -/
theorem check_response_nonobject_counterexample :
    (500 : Nat) ∉ [200]
    ∧ (checkResponse false ⟨500, [], .jsonNonObject, "GET", "u"⟩ [200]).1
        = .error PyError.attributeError := by
  exact ⟨by decide, rfl⟩

/-- Claim C1 as amended: `_check_response` succeeds (returning, leaving the
raw response to the caller) iff the status code is in the allowed set; for a
disallowed status whose body is not a valid-JSON non-object, it raises the
typed error whose variant is a pure function of the numeric status — 401 ↦
Unauthorized, 404 ↦ NotFound, 409 ↦ Conflict, ≥ 500 ↦ ServerError, generic
`BinstarError` otherwise — with the status code attached; but for a body
that is valid JSON and not an object it raises an uncaught `AttributeError`
(line 215) in place of the typed error. -/
theorem check_response_spec (sent : Bool) (res : HttpResponse) (allowed : List Nat) :
    ((checkResponse sent res allowed).1 = .ok () ↔ res.status ∈ allowed)
    ∧ (res.status ∉ allowed → res.body ≠ JsonBody.jsonNonObject →
        (checkResponse sent res allowed).1 =
          .error (.api ⟨errCls res.status, errorMsg res, some res.status⟩))
    ∧ (res.status ∉ allowed → res.body = JsonBody.jsonNonObject →
        (checkResponse sent res allowed).1 = .error PyError.attributeError)
    ∧ errCls 401 = .unauthorized ∧ errCls 404 = .notFound ∧ errCls 409 = .conflict
    ∧ (∀ n, 500 ≤ n → errCls n = .serverError)
    ∧ (∀ n, n ≠ 401 → n ≠ 404 → n ≠ 409 → n < 500 → errCls n = .binstarError) := by
  refine ⟨?_, ?_, ?_, rfl, rfl, rfl, ?_, ?_⟩
  · rw [checkResponse_fst]
    split
    · simp_all
    · simp_all
  · intro h hb
    rw [checkResponse_fst, if_neg h, classifyFail_not_nonObject res hb]
  · intro h hb
    rw [checkResponse_fst, if_neg h, classifyFail_nonObject res hb]
  · intro n hn
    unfold errCls
    have h1 : (n == 401) = false := by simp; omega
    have h2 : (n == 404) = false := by simp; omega
    have h3 : (n == 409) = false := by simp; omega
    simp [h1, h2, h3, hn]
  · intro n h1 h2 h3 h4
    unfold errCls
    simp only [beq_iff_eq]
    rw [if_neg h1, if_neg h2, if_neg h3, if_neg (by omega)]

/-- Witness for the amended C1 at a concrete disallowed response: status 401
with a JSON object body carrying an error message is classified as
Unauthorized with status 401 and the body's message. -/
theorem check_response_spec_witness :
    (401 : Nat) ∉ [200] ∧
      (checkResponse false ⟨401, [], .jsonObject (some "denied"), "GET", "u"⟩ [200]).1 =
        .error (.api ⟨.unauthorized, "denied", some 401⟩) :=
  ⟨by decide,
    (check_response_spec false ⟨401, [], .jsonObject (some "denied"), "GET", "u"⟩
      [200]).2.1 (by decide) (by decide)⟩

/-! ### Helper lemmas about the upload phases -/

theorem uploadTransfer_unbound (flag : Bool)
    (domain login package_name release basename s3url : String)
    (s3data : List (String × FormVal)) (sizeN : Nat) (distId cj : String)
    (s3s : Nat) (s3b : S3Body) (commitRes : HttpResponse) (acc : List Req) :
    uploadTransfer flag domain login package_name release basename s3url s3data none
        sizeN distId cj s3s s3b commitRes acc
      = (.error (.unboundLocal "b64md5"), acc, flag) := rfl

theorem uploadTransfer_fail (flag : Bool)
    (domain login package_name release basename s3url : String)
    (s3data : List (String × FormVal)) (b64 : String) (sizeN : Nat) (distId cj : String)
    (s3s : Nat) (s3b : S3Body) (commitRes : HttpResponse) (acc : List Req)
    (hs : s3s ≠ 201) :
    (uploadTransfer flag domain login package_name release basename s3url s3data
        (some b64) sizeN distId cj s3s s3b commitRes acc).2.1
      = acc ++ [s3Req domain s3url s3data sizeN b64]
    ∧ ∃ e, (uploadTransfer flag domain login package_name release basename s3url s3data
        (some b64) sizeN distId cj s3s s3b commitRes acc).1 = .error e := by
  simp only [uploadTransfer]
  rw [if_pos hs]
  cases s3b <;> exact ⟨rfl, _, rfl⟩

theorem uploadTransfer_xmlCode (flag : Bool)
    (domain login package_name release basename s3url : String)
    (s3data : List (String × FormVal)) (b64 : String) (sizeN : Nat) (distId cj : String)
    (s3s : Nat) (code : String) (commitRes : HttpResponse) (acc : List Req)
    (hs : s3s ≠ 201) :
    (uploadTransfer flag domain login package_name release basename s3url s3data
        (some b64) sizeN distId cj s3s (S3Body.xmlCode code) commitRes acc).1
      = .error (.api ⟨.binstarError, "Error uploading package!"
          ++ (if code == "InvalidDigest"
              then " The Content-MD5 or checksum value is not valid." else ""),
          some s3s⟩) := by
  simp only [uploadTransfer]
  rw [if_pos hs]

theorem uploadTransfer_201 (flag : Bool)
    (domain login package_name release basename s3url : String)
    (s3data : List (String × FormVal)) (b64 : String) (sizeN : Nat) (distId cj : String)
    (s3b : S3Body) (commitRes : HttpResponse) (acc : List Req) :
    uploadTransfer flag domain login package_name release basename s3url s3data
        (some b64) sizeN distId cj 201 s3b commitRes acc
      = uploadCommit flag domain login package_name release basename distId cj commitRes
          (acc ++ [s3Req domain s3url s3data sizeN b64]) := by
  simp only [uploadTransfer]
  rw [if_neg (by simp)]

theorem uploadCommit_parts (flag : Bool)
    (domain login package_name release basename distId cj : String)
    (commitRes : HttpResponse) (acc : List Req) :
    (uploadCommit flag domain login package_name release basename distId cj commitRes
        acc).2.1
      = acc ++ [commitReq domain login package_name release basename distId]
    ∧ (commitRes.status = 200 →
        (uploadCommit flag domain login package_name release basename distId cj commitRes
          acc).1 = .ok cj)
    ∧ (commitRes.status ≠ 200 →
        ∃ e, (uploadCommit flag domain login package_name release basename distId cj
          commitRes acc).1 = .error e) := by
  by_cases h : commitRes.status = 200
  · have hchk : (checkResponse flag commitRes [200]).1 = .ok () := by
      rw [checkResponse_fst]; simp [h]
    exact ⟨by simp [uploadCommit, hchk], fun _ => by simp [uploadCommit, hchk],
      fun hne => absurd h hne⟩
  · have hchk : (checkResponse flag commitRes [200]).1
        = .error (classifyFail commitRes) := by
      rw [checkResponse_fst]; simp [h]
    exact ⟨by simp [uploadCommit, hchk], fun h200 => absurd h200 h,
      fun _ => ⟨classifyFail commitRes, by simp [uploadCommit, hchk]⟩⟩

theorem upload_stage_ok (c : Client) (aS aM : HashAlg) (login pkg rel base : String)
    (fd : ByteStream) (dt desc : String) (sha : Option String) (size : Option Nat)
    (w : UploadWorld)
    (hok : (checkResponse c.token_warning_sent w.stage [200]).1 = .ok ()) :
    upload c aS aM login pkg rel base fd dt desc none sha size w
      = uploadTransfer (checkResponse c.token_warning_sent w.stage [200]).2.1 c.domain
          login pkg rel base w.stageBody.post_url w.stageBody.form_data
          (some (compute_hash aM fd size).1.b64) (compute_hash aM fd size).1.size
          w.stageBody.dist_id w.commitJson w.s3_status w.s3_body w.commit
          [stageReq c.domain login pkg rel base (stageSha aS fd size sha)] := by
  simp only [upload, hok]

theorem upload_md5_some (c : Client) (aS aM : HashAlg) (login pkg rel base : String)
    (fd : ByteStream) (dt desc : String) (m : String) (sha : Option String)
    (size : Option Nat) (w : UploadWorld) :
    (upload c aS aM login pkg rel base fd dt desc (some m) sha size w).2.1.length ≤ 1
    ∧ ∃ e, (upload c aS aM login pkg rel base fd dt desc (some m) sha size w).1
        = .error e := by
  rcases hc : (checkResponse c.token_warning_sent w.stage [200]).1 with e | u
  · exact ⟨by simp [upload, hc], ⟨e, by simp [upload, hc]⟩⟩
  · cases u
    rcases size with _ | n
    · exact ⟨by simp [upload, hc, uploadTransfer_unbound],
        ⟨.unboundLocal "b64md5", by simp [upload, hc, uploadTransfer_unbound]⟩⟩
    · exact ⟨by simp [upload, hc, uploadTransfer_unbound],
        ⟨.unboundLocal "b64md5", by simp [upload, hc, uploadTransfer_unbound]⟩⟩

theorem upload_stage_fail (c : Client) (aS aM : HashAlg) (login pkg rel base : String)
    (fd : ByteStream) (dt desc : String) (md5 sha : Option String) (size : Option Nat)
    (w : UploadWorld) (e : PyError)
    (hc : (checkResponse c.token_warning_sent w.stage [200]).1 = .error e) :
    (upload c aS aM login pkg rel base fd dt desc md5 sha size w).1 = .error e
    ∧ (upload c aS aM login pkg rel base fd dt desc md5 sha size w).2.1.length = 1 := by
  rcases md5 with _ | m <;> exact ⟨by simp [upload, hc], by simp [upload, hc]⟩

/-- Claim C2: when the stage request succeeds, the transfer request is
actually issued (the trace reaches a second request) and comes back 201, and
the commit comes back 200, `upload` returns the commit response's decoded
body after exactly the three protocol requests; and whenever the storage
status is anything but 201, the operation fails without the commit request
ever being sent (the trace never exceeds the stage and storage requests). -/
theorem upload_orchestration (c : Client) (aS aM : HashAlg) (login pkg rel base : String)
    (fd : ByteStream) (dt desc : String) (md5 sha : Option String) (size : Option Nat)
    (w : UploadWorld) :
    (w.stage.status = 200 → w.s3_status = 201 → w.commit.status = 200 →
      2 ≤ (upload c aS aM login pkg rel base fd dt desc md5 sha size w).2.1.length →
      (upload c aS aM login pkg rel base fd dt desc md5 sha size w).1 = .ok w.commitJson
      ∧ (upload c aS aM login pkg rel base fd dt desc md5 sha size w).2.1.length = 3)
    ∧ (w.s3_status ≠ 201 →
      (upload c aS aM login pkg rel base fd dt desc md5 sha size w).2.1.length ≤ 2
      ∧ ∃ e, (upload c aS aM login pkg rel base fd dt desc md5 sha size w).1
          = .error e) := by
  constructor
  · intro hst h201 hc200 hlen
    have hok : (checkResponse c.token_warning_sent w.stage [200]).1 = .ok () := by
      rw [checkResponse_fst]; simp [hst]
    rcases md5 with _ | m
    · rw [upload_stage_ok c aS aM login pkg rel base fd dt desc sha size w hok] at hlen ⊢
      rw [h201, uploadTransfer_201] at hlen ⊢
      have parts := uploadCommit_parts
        (checkResponse c.token_warning_sent w.stage [200]).2.1 c.domain login pkg rel base
        w.stageBody.dist_id w.commitJson w.commit
        ([stageReq c.domain login pkg rel base (stageSha aS fd size sha)]
          ++ [s3Req c.domain w.stageBody.post_url w.stageBody.form_data
              (compute_hash aM fd size).1.size (compute_hash aM fd size).1.b64])
      exact ⟨parts.2.1 hc200, by rw [parts.1]; simp⟩
    · have hshort := (upload_md5_some c aS aM login pkg rel base fd dt desc m sha size w).1
      omega
  · intro hs
    rcases hc : (checkResponse c.token_warning_sent w.stage [200]).1 with e | u
    · have hf := upload_stage_fail c aS aM login pkg rel base fd dt desc md5 sha size w e hc
      exact ⟨by omega, ⟨e, hf.1⟩⟩
    · cases u
      rcases md5 with _ | m
      · rw [upload_stage_ok c aS aM login pkg rel base fd dt desc sha size w hc]
        have tf := uploadTransfer_fail
          (checkResponse c.token_warning_sent w.stage [200]).2.1 c.domain login pkg rel
          base w.stageBody.post_url w.stageBody.form_data (compute_hash aM fd size).1.b64
          (compute_hash aM fd size).1.size w.stageBody.dist_id w.commitJson w.s3_status
          w.s3_body w.commit
          [stageReq c.domain login pkg rel base (stageSha aS fd size sha)] hs
        exact ⟨by rw [tf.1]; simp, tf.2⟩
      · have h := upload_md5_some c aS aM login pkg rel base fd dt desc m sha size w
        exact ⟨by omega, h.2⟩

/-- Witness for C2 at a benign concrete upload (stage 200, storage 201,
commit 200, no caller-supplied MD5): the commit body is returned and exactly
three requests were sent. -/
theorem upload_orchestration_witness :
    (upload cC algA algA "o" "p" "1.0" "f.tar" fd0 "conda" "" none none none w0).1
      = .ok w0.commitJson
    ∧ (upload cC algA algA "o" "p" "1.0" "f.tar" fd0 "conda" "" none none none
        w0).2.1.length = 3 :=
  (upload_orchestration cC algA algA "o" "p" "1.0" "f.tar" fd0 "conda" "" none none none
    w0).1 rfl rfl rfl (by decide)

/-- Counterexample to claim C3: the storage URL
`https://api.anaconda.org.evil.com/upload` is on a different origin than the
base endpoint `https://api.anaconda.org` (its string merely begins with it),
yet the storage-transfer request is routed through the authenticated
session, because line 589 decides by string prefix, not by origin. -/
theorem upload_lookalike_origin_counterexample :
    sameOrigin w1.stageBody.post_url cC.domain = false
    ∧ ((upload cC algA algA "o" "p" "1.0" "f.tar" fd0 "conda" "" none none none
        w1).2.1[1]?.map Req.target) = some Target.session := by
  exact ⟨rfl, rfl⟩

/-- Claim C3 as amended: the storage-transfer request (the second request of
the upload trace, whenever one is sent) targets the stage-returned storage
URL and goes through the authenticated session exactly when that URL string
starts with the configured base endpoint — a string-prefix match, which also
routes look-alike hosts through the session. -/
theorem upload_routing_prefix (c : Client) (aS aM : HashAlg) (login pkg rel base : String)
    (fd : ByteStream) (dt desc : String) (md5 sha : Option String) (size : Option Nat)
    (w : UploadWorld) (r : Req)
    (h : (upload c aS aM login pkg rel base fd dt desc md5 sha size w).2.1[1]?
        = some r) :
    r.url = w.stageBody.post_url
    ∧ (r.target = Target.session
        ↔ startsWithStr w.stageBody.post_url c.domain = true) := by
  have hmain : ∀ s3url : String, ∀ s3data sizeN b64, r = s3Req c.domain s3url s3data sizeN b64 →
      r.url = s3url ∧ (r.target = Target.session ↔ startsWithStr s3url c.domain = true) := by
    intro s3url s3data sizeN b64 hr
    subst hr
    by_cases hsw : startsWithStr s3url c.domain <;> simp [s3Req, mkReq, hsw]
  rcases hc : (checkResponse c.token_warning_sent w.stage [200]).1 with e | u
  · have hf := upload_stage_fail c aS aM login pkg rel base fd dt desc md5 sha size w e hc
    rcases List.getElem?_eq_some.mp h with ⟨hlt, _⟩
    omega
  · cases u
    rcases md5 with _ | m
    · rw [upload_stage_ok c aS aM login pkg rel base fd dt desc sha size w hc] at h
      by_cases h201 : w.s3_status = 201
      · rw [h201, uploadTransfer_201] at h
        rw [(uploadCommit_parts (checkResponse c.token_warning_sent w.stage [200]).2.1
          c.domain login pkg rel base w.stageBody.dist_id w.commitJson w.commit
          ([stageReq c.domain login pkg rel base (stageSha aS fd size sha)]
            ++ [s3Req c.domain w.stageBody.post_url w.stageBody.form_data
                (compute_hash aM fd size).1.size (compute_hash aM fd size).1.b64])).1] at h
        simp at h
        exact hmain w.stageBody.post_url w.stageBody.form_data
          (compute_hash aM fd size).1.size (compute_hash aM fd size).1.b64 h.symm
      · rw [(uploadTransfer_fail (checkResponse c.token_warning_sent w.stage [200]).2.1
          c.domain login pkg rel base w.stageBody.post_url w.stageBody.form_data
          (compute_hash aM fd size).1.b64 (compute_hash aM fd size).1.size
          w.stageBody.dist_id w.commitJson w.s3_status w.s3_body w.commit
          [stageReq c.domain login pkg rel base (stageSha aS fd size sha)] h201).1] at h
        simp at h
        exact hmain w.stageBody.post_url w.stageBody.form_data
          (compute_hash aM fd size).1.size (compute_hash aM fd size).1.b64 h.symm
    · have hshort := (upload_md5_some c aS aM login pkg rel base fd dt desc m sha size w).1
      rcases List.getElem?_eq_some.mp h with ⟨hlt, _⟩
      omega

/-- Witness for the amended C3 at a concrete upload whose storage URL is the
look-alike host of `w1`: the second request is exactly the storage request
and its routing agrees with the string-prefix test. -/
theorem upload_routing_prefix_witness :
    (s3Req cC.domain w1.stageBody.post_url w1.stageBody.form_data 3 "b643").url
      = w1.stageBody.post_url
    ∧ ((s3Req cC.domain w1.stageBody.post_url w1.stageBody.form_data 3 "b643").target
        = Target.session
      ↔ startsWithStr w1.stageBody.post_url cC.domain = true) :=
  upload_routing_prefix cC algA algA "o" "p" "1.0" "f.tar" fd0 "conda" "" none none none
    w1 (s3Req cC.domain w1.stageBody.post_url w1.stageBody.form_data 3 "b643") (by decide)

/-- Claim C4 (code bug): at line 587 the form-field map is supposed to
receive the caller's MD5 when one was supplied, but the local `b64md5` is
only ever assigned on the `md5 is None` path, so an upload with a supplied
MD5 dies with `UnboundLocalError` before the storage request is sent (first
conjuncts); when no MD5 is supplied the claim's behaviour does hold — the
storage request's form fields carry `Content-Length` equal to the byte count
and `Content-MD5` equal to the stream's base64 MD5 digest (`algA` maps the
three hashed bytes of `fd0` to the digest pair `("hex3", "b643")`). -/
theorem upload_content_md5_bug :
    (upload cC algA algA "o" "p" "1.0" "f.tar" fd0 "conda" "" (some "c3VwcGxpZWQ=") none
        (some 3) w0).1 = .error (.unboundLocal "b64md5")
    ∧ (upload cC algA algA "o" "p" "1.0" "f.tar" fd0 "conda" "" (some "c3VwcGxpZWQ=")
        none (some 3) w0).2.1.length = 1
    ∧ ((upload cC algA algA "o" "p" "1.0" "f.tar" fd0 "conda" "" none none none
        w0).2.1[1]?.map Req.formData)
      = some [("key", FormVal.str "k1"), ("Content-Length", FormVal.nat 3),
          ("Content-MD5", FormVal.str "b643")] := by
  exact ⟨rfl, rfl, rfl⟩

/-- Counterexample to claim C7: a storage-transfer response with status 403
and a body that is not well-formed XML does not produce a typed API error —
`ET.fromstring(s3res.text)` at line 600 raises an XML parse error before the
typed error of line 604 is ever constructed. -/
theorem storage_error_nonxml_counterexample :
    (upload cC algA algA "o" "p" "1.0" "f.tar" fd0 "conda" "" none none none w2).1
      = .error PyError.xmlParseError := by
  exact rfl

/-- Claim C7 as amended: when the storage-transfer request is issued and
comes back with a status other than 201 and a body that is a well-formed XML
document with a `Code` element, the upload fails with a typed API error
carrying the storage status, and the message ends with the checksum
clarification exactly when the code is `InvalidDigest`; for a body that is
not such a document the failure is an XML parse error or attribute error
instead. -/
theorem upload_storage_error (c : Client) (aS aM : HashAlg) (login pkg rel base : String)
    (fd : ByteStream) (dt desc : String) (md5 sha : Option String) (size : Option Nat)
    (w : UploadWorld) (code : String)
    (hb : w.s3_body = S3Body.xmlCode code) (hs : w.s3_status ≠ 201)
    (hsent : 2 ≤ (upload c aS aM login pkg rel base fd dt desc md5 sha size w).2.1.length) :
    (upload c aS aM login pkg rel base fd dt desc md5 sha size w).1
      = .error (.api ⟨.binstarError, "Error uploading package!"
          ++ (if code == "InvalidDigest"
              then " The Content-MD5 or checksum value is not valid." else ""),
          some w.s3_status⟩) := by
  rcases hc : (checkResponse c.token_warning_sent w.stage [200]).1 with e | u
  · have hf := upload_stage_fail c aS aM login pkg rel base fd dt desc md5 sha size w e hc
    omega
  · cases u
    rcases md5 with _ | m
    · rw [upload_stage_ok c aS aM login pkg rel base fd dt desc sha size w hc, hb]
      exact uploadTransfer_xmlCode (checkResponse c.token_warning_sent w.stage [200]).2.1
        c.domain login pkg rel base w.stageBody.post_url w.stageBody.form_data
        (compute_hash aM fd size).1.b64 (compute_hash aM fd size).1.size
        w.stageBody.dist_id w.commitJson w.s3_status code w.commit
        [stageReq c.domain login pkg rel base (stageSha aS fd size sha)] hs
    · have hshort := (upload_md5_some c aS aM login pkg rel base fd dt desc m sha size w).1
      omega

/-- Witness for the amended C7 at the concrete world `w3` (storage status
400, XML body with code `InvalidDigest`): the upload fails with the typed
generic error carrying status 400, its message ending with the checksum
clarification. -/
theorem upload_storage_error_witness :
    (upload cC algA algA "o" "p" "1.0" "f.tar" fd0 "conda" "" none none none w3).1
      = .error (.api ⟨.binstarError, "Error uploading package!"
          ++ (if "InvalidDigest" == "InvalidDigest"
              then " The Content-MD5 or checksum value is not valid." else ""),
          some w3.s3_status⟩) :=
  upload_storage_error cC algA algA "o" "p" "1.0" "f.tar" fd0 "conda" "" none none none
    w3 "InvalidDigest" rfl (by decide) (by decide)

/-- Claim C5 as amended: for every download — the initial request goes
through the session with automatic redirects disabled; a 200 yields the
inline primary response after exactly one request; a 304 yields `None`
(unchanged) after exactly one request; a 302 with a location header triggers
exactly one follow-up streaming GET of that location, issued outside the
session (so no session headers such as Authorization accompany it), whose
streamed response is returned; a status outside `{200, 302, 304}` raises the
typed classification error carrying that status when the body is not a
valid-JSON non-object, and the uncaught line-215 `AttributeError` when it
is. -/
theorem download_spec (c : Client) (login pkg rel base : String) (md5 : Option String)
    (w : DownloadWorld) :
    (∃ r, (download c login pkg rel base md5 w).2.1.head? = some r
      ∧ r.allowRedirects = false ∧ r.target = Target.session)
    ∧ (w.res.status = 200 →
        (download c login pkg rel base md5 w).1 = .ok (some .primary)
        ∧ (download c login pkg rel base md5 w).2.1.length = 1)
    ∧ (w.res.status = 304 →
        (download c login pkg rel base md5 w).1 = .ok none
        ∧ (download c login pkg rel base md5 w).2.1.length = 1)
    ∧ (w.res.status = 302 → ∀ loc, lookupHeader w.res.headers "location" = some loc →
        (download c login pkg rel base md5 w).1 = .ok (some (.secondary w.res2))
        ∧ (download c login pkg rel base md5 w).2.1.length = 2
        ∧ ∃ r2, (download c login pkg rel base md5 w).2.1[1]? = some r2
          ∧ r2.target = Target.plainRequests ∧ r2.url = loc ∧ r2.stream = true
          ∧ r2.headers = [])
    ∧ (w.res.status ∉ [200, 302, 304] → w.res.body ≠ JsonBody.jsonNonObject →
        (download c login pkg rel base md5 w).1 = .error (.api ⟨errCls w.res.status,
          errorMsg w.res, some w.res.status⟩))
    ∧ (w.res.status ∉ [200, 302, 304] → w.res.body = JsonBody.jsonNonObject →
        (download c login pkg rel base md5 w).1 = .error PyError.attributeError) := by
  have hhead : (download c login pkg rel base md5 w).2.1.head?
      = some (downloadReq c.domain login pkg rel base md5) := by
    rcases hc : (checkResponse c.token_warning_sent w.res [200, 302, 304]).1 with e | u
    · simp [download, hc]
    · cases u
      by_cases h200 : w.res.status = 200
      · simp [download, hc, h200]
      · by_cases h304 : w.res.status = 304
        · simp [download, hc, h200, h304]
        · by_cases h302 : w.res.status = 302
          · rcases hloc : lookupHeader w.res.headers "location" with _ | loc <;>
              simp [download, hc, h200, h304, h302, hloc]
          · simp [download, hc, h200, h304, h302]
  by_cases hmem : w.res.status ∈ [200, 302, 304]
  · have hchk : (checkResponse c.token_warning_sent w.res [200, 302, 304]).1 = .ok () := by
      rw [checkResponse_fst]; simp [hmem]
    refine ⟨⟨downloadReq c.domain login pkg rel base md5, hhead, rfl, rfl⟩,
      ?_, ?_, ?_, fun hn => absurd hmem hn, fun hn => absurd hmem hn⟩
    · intro h200
      constructor <;> simp [download, hchk, h200]
    · intro h304
      have hne : w.res.status ≠ 200 := by omega
      constructor <;> simp [download, hchk, h304, hne]
    · intro h302 loc hloc
      have hne2 : w.res.status ≠ 200 := by omega
      have hne3 : w.res.status ≠ 304 := by omega
      refine ⟨by simp [download, hchk, h302, hne2, hne3, hloc],
        by simp [download, hchk, h302, hne2, hne3, hloc],
        ⟨redirectReq loc, by simp [download, hchk, h302, hne2, hne3, hloc],
          rfl, rfl, rfl, rfl⟩⟩
  · have hchk : (checkResponse c.token_warning_sent w.res [200, 302, 304]).1
        = .error (classifyFail w.res) := by
      rw [checkResponse_fst]; simp [hmem]
    have h200 : w.res.status ≠ 200 := by simp at hmem; omega
    have h302 : w.res.status ≠ 302 := by simp at hmem; omega
    have h304 : w.res.status ≠ 304 := by simp at hmem; omega
    exact ⟨⟨downloadReq c.domain login pkg rel base md5, hhead, rfl, rfl⟩,
      fun h => absurd h h200, fun h => absurd h h304,
      fun h => absurd h h302,
      fun _ hb => by
        simp [download, hchk, classifyFail_not_nonObject w.res hb],
      fun _ hb => by
        simp [download, hchk, classifyFail_nonObject w.res hb]⟩

/-- Witness for C5 at a concrete 302 download: the redirect is followed by
exactly one unauthenticated streaming request to the location header's URL. -/
theorem download_spec_witness :
    (download cC "o" "p" "1.0" "f.tar" (some "m5") wD).1
      = .ok (some (.secondary wD.res2))
    ∧ (download cC "o" "p" "1.0" "f.tar" (some "m5") wD).2.1.length = 2
    ∧ ∃ r2, (download cC "o" "p" "1.0" "f.tar" (some "m5") wD).2.1[1]? = some r2
      ∧ r2.target = Target.plainRequests ∧ r2.url = "https://cdn.example.com/f"
      ∧ r2.stream = true ∧ r2.headers = [] :=
  (download_spec cC "o" "p" "1.0" "f.tar" (some "m5") wD).2.2.2.1 rfl
    "https://cdn.example.com/f" rfl

/-- Counterexample to claim C5: a download whose primary response has status
500 and a valid-JSON non-object body does not raise the typed classification
error — classification crashes with the uncaught line-215 `AttributeError`
instead. -/
theorem download_nonobject_counterexample :
    (download cC "o" "p" "1.0" "f.tar" none
        ⟨⟨500, [], .jsonNonObject, "GET", "u"⟩, "s"⟩).1
      = .error PyError.attributeError := by
  exact rfl

/-! ### Helper lemmas for the one-shot token warning -/

theorem twFlags_cons (sent : Bool) (r : HttpResponse) (rs : List HttpResponse) :
    twFlags sent (r :: rs)
      = ((checkResponse sent r [200]).2.2.any isTokenWarning)
        :: twFlags (checkResponse sent r [200]).2.1 rs := rfl

theorem checkResponse_warn_iff (sent : Bool) (res : HttpResponse) (allowed : List Nat) :
    ((checkResponse sent res allowed).2.2.any isTokenWarning)
      = (!sent && hasTokenWarningHeader res) := by
  simp only [checkResponse, List.any_append]
  split <;> split <;> split <;> split <;> simp_all [isTokenWarning]

theorem twFlags_suppressed (rs : List HttpResponse) :
    twFlags true rs = rs.map (fun _ => false) := by
  induction rs with
  | nil => rfl
  | cons r rs ih =>
    rw [twFlags_cons, checkResponse_warn_iff, checkResponse_flag]
    simp [ih]

/-- Claim C6: over any session sequence of responses starting with a fresh
one-shot flag, the token-deprecation warning is logged exactly at the first
response carrying the deprecation header and at no other response — in
particular exactly once when, as the claim assumes, the header is present
on every response of a nonempty sequence. -/
theorem token_warning_once (rs₁ : List HttpResponse) (r : HttpResponse)
    (rs₂ : List HttpResponse)
    (h1 : ∀ x ∈ rs₁, hasTokenWarningHeader x = false)
    (h2 : hasTokenWarningHeader r = true) :
    twFlags false (rs₁ ++ r :: rs₂)
      = rs₁.map (fun _ => false) ++ true :: rs₂.map (fun _ => false) := by
  induction rs₁ with
  | nil =>
    simp only [List.nil_append, List.map_nil]
    rw [twFlags_cons, checkResponse_warn_iff, checkResponse_flag]
    simp [h2, twFlags_suppressed]
  | cons x xs ih =>
    have hx : hasTokenWarningHeader x = false := h1 x (by simp)
    rw [List.cons_append, twFlags_cons, checkResponse_warn_iff, checkResponse_flag]
    simp only [hx, Bool.and_false, Bool.not_false, Bool.true_and, if_false, List.map_cons,
      List.cons_append]
    exact congrArg (List.cons false) (ih (fun y hy => h1 y (by simp [hy])))

/-- Witness for C6 at a concrete three-response session: no header on the
first response, the header on the second and third — the warning is logged
exactly once, at the second response. -/
theorem token_warning_once_witness :
    twFlags false [⟨200, [], .notJson, "GET", "u"⟩,
      ⟨200, [("Conda-Token-Warning", "deprecated")], .notJson, "GET", "u"⟩,
      ⟨200, [("Conda-Token-Warning", "deprecated")], .notJson, "GET", "u"⟩]
      = [false, true, false] :=
  token_warning_once [⟨200, [], .notJson, "GET", "u"⟩]
    ⟨200, [("Conda-Token-Warning", "deprecated")], .notJson, "GET", "u"⟩
    [⟨200, [("Conda-Token-Warning", "deprecated")], .notJson, "GET", "u"⟩]
    (by decide) (by decide)

/-- Counterexample to claim C8: a 500 response to `authentication-type` is
classified as a typed ServerError, yet `authentication_type` catches it
(`except BinstarError`) and returns the success value `'password'` in its
place — an operation that swallows a typed error. -/
theorem authentication_type_swallows_counterexample :
    (authentication_type cC ⟨500, [], .notJson, "GET", "u"⟩ (some "kerberos")).1
      = .ok "password" := by
  exact rfl

/-- Claim C8 as amended: transport-level connectivity failures are wrapped
into ServerError with the fixed diagnostic (and the cause chained), a
NotFound during the server check is rewrapped the same way, and whenever
classification raises a typed error (i.e. on the non-crashing body paths)
operations surface it to the caller unchanged — with the exception of
`authentication_type`, which catches every typed API error and substitutes
the fallback success value `'password'`. -/
theorem error_propagation_policy (c : Client) (login pkg : String) (res : HttpResponse)
    (body : String) (fld : Option String) :
    (res.status ∉ [200] → res.body ≠ JsonBody.jsonNonObject →
      (package c login pkg res body).1
        = .error (.api ⟨errCls res.status, errorMsg res, some res.status⟩))
    ∧ ((check_server c none).1
        = .error (.api ⟨.serverError,
            "API server not found. Please check your API url configuration.", none⟩))
    ∧ (res.status = 404 → res.body ≠ JsonBody.jsonNonObject →
        (check_server c (some res)).1
        = .error (.api ⟨.serverError,
            "API server not found. Please check your API url configuration.", none⟩))
    ∧ (res.status ∉ [200] → res.body ≠ JsonBody.jsonNonObject →
        (authentication_type c res fld).1 = .ok "password") := by
  refine ⟨?_, rfl, ?_, ?_⟩
  · intro h hb
    have hchk : (checkResponse c.token_warning_sent res [200]).1
        = .error (.api ⟨errCls res.status, errorMsg res, some res.status⟩) := by
      rw [checkResponse_fst, if_neg h, classifyFail_not_nonObject res hb]
    simp [package, hchk]
  · intro h404 hb
    have hchk : (checkResponse c.token_warning_sent res [200]).1
        = .error (.api ⟨errCls res.status, errorMsg res, some res.status⟩) := by
      rw [checkResponse_fst, if_neg (by simp [h404]), classifyFail_not_nonObject res hb]
    rw [h404] at hchk
    simp [check_server, hchk, errCls]
  · intro h hb
    have hchk : (checkResponse c.token_warning_sent res [200]).1
        = .error (.api ⟨errCls res.status, errorMsg res, some res.status⟩) := by
      rw [checkResponse_fst, if_neg h, classifyFail_not_nonObject res hb]
    simp [authentication_type, hchk]

/-- Witness for the amended C8 at a concrete failing operation: a 500
response with a JSON error body makes `package` surface the typed
ServerError with that message and status. -/
theorem error_propagation_policy_witness :
    (package cC "owner" "pkg" ⟨500, [], .jsonObject (some "boom"), "GET", "u"⟩ "body").1
      = .error (.api ⟨.serverError, "boom", some 500⟩) :=
  (error_propagation_policy cC "owner" "pkg" ⟨500, [], .jsonObject (some "boom"), "GET", "u"⟩
    "body" none).1 (by decide) (by decide)

/-! ### Helper lemmas about strings for the domain-normalization claim -/

theorem startsWithStr_append (p d : String) : startsWithStr (p ++ d) p = true := by
  unfold startsWithStr
  rw [data_append]
  exact List.isPrefixOf_iff_prefix.mpr (List.prefix_append _ _)

theorem strEndsWith_slash_iff (s : String) :
    strEndsWith s "/" = true ↔ s.data.getLast? = some '/' := by
  unfold strEndsWith
  rw [List.isSuffixOf_iff_suffix]
  have hd : ("/" : String).data = ['/'] := rfl
  rw [hd]
  constructor
  · rintro ⟨t, ht⟩
    rw [← ht]
    exact List.getLast?_concat t
  · intro h
    rcases s.data.eq_nil_or_concat with he | ⟨l2, a, hconc⟩
    · rw [he] at h; cases h
    · rw [List.concat_eq_append] at hconc
      rw [hconc, List.getLast?_concat] at h
      cases h
      exact ⟨l2, hconc.symm⟩

/-- Counterexample to claim C9: an input with two trailing separators keeps
one of them, because lines 57-58 strip only a single trailing `/`. -/
theorem normalize_domain_double_slash_counterexample :
    strEndsWith (normalizeDomain "https://api.anaconda.org//") "/" = true := by
  exact rfl

/-- Claim C9 as amended: the stored base endpoint always carries a scheme
(`http://` or `https://`) for every input; and since only a single trailing
separator is stripped, the endpoint is guaranteed free of a trailing `/`
only for inputs that, after that one strip, are nonempty and do not still
end with `/` — i.e. inputs with at most one trailing separator and a
nonempty remainder. -/
theorem normalize_domain_spec (s : String) :
    (startsWithStr (normalizeDomain s) "http://"
      || startsWithStr (normalizeDomain s) "https://") = true
    ∧ (stripTrailingSlash s ≠ "" → strEndsWith (stripTrailingSlash s) "/" = false →
        strEndsWith (normalizeDomain s) "/" = false) := by
  unfold normalizeDomain
  by_cases hsc : (startsWithStr (stripTrailingSlash s) "http://"
      || startsWithStr (stripTrailingSlash s) "https://") = true
  · rw [if_pos hsc]
    exact ⟨hsc, fun _ h2 => h2⟩
  · rw [if_neg hsc]
    constructor
    · rw [startsWithStr_append]
      simp
    · intro hne h2
      cases hb : strEndsWith ("https://" ++ stripTrailingSlash s) "/"
      · rfl
      · exfalso
        have hlast : ("https://" ++ stripTrailingSlash s).data.getLast? = some '/' :=
          (strEndsWith_slash_iff _).mp hb
        rw [data_append] at hlast
        have hnil : (stripTrailingSlash s).data ≠ [] := fun h0 => hne (String.ext h0)
        rw [List.getLast?_append_of_ne_nil _ hnil] at hlast
        have hcontra : strEndsWith (stripTrailingSlash s) "/" = true :=
          (strEndsWith_slash_iff _).mpr hlast
        rw [h2] at hcontra
        cases hcontra

/-- Witness for the amended C9 at a concrete input with a single trailing
separator and no scheme: the normalized endpoint has no trailing slash (and
the general theorem also guarantees its scheme). -/
theorem normalize_domain_spec_witness :
    strEndsWith (normalizeDomain "api.anaconda.org/") "/" = false :=
  (normalize_domain_spec "api.anaconda.org/").2 (by decide) (by decide)

/-! ### Allowed-status lemma for the 201-only operations -/

theorem checkResponse_201 (flag : Bool) (res : HttpResponse) :
    ((checkResponse flag res [201]).1 = .ok () ↔ res.status = 201)
    ∧ (res.status ≠ 201 → (checkResponse flag res [201]).1
        = .error (classifyFail res)) := by
  constructor
  · rw [checkResponse_fst]
    constructor
    · intro h
      by_contra hne
      rw [if_neg (by simp [hne])] at h
      cases h
    · intro h
      rw [if_pos (by simp [h])]
  · intro h
    rw [checkResponse_fst, if_neg (by simp [h])]

/-- Claim C10: the removal and collaborator-management operations
(`remove_authentication`, `package_add_collaborator`,
`package_remove_collaborator`, `remove_package`, `remove_release`) succeed
exactly on HTTP status 201; a 200 response whose body is not a valid-JSON
non-object makes each of them raise the generic typed API error carrying
status 200 — unlike an operation using the `[200]` default, such as
`package`, which succeeds exactly on 200 — while a 200 response with a
valid-JSON non-object body makes them crash with the uncaught line-215
`AttributeError` instead of the typed error. -/
theorem remove_ops_allowed_201 (c : Client) (a o : Option String)
    (owner pkg collab user ver : String) (res : HttpResponse) (body : String) :
    ((remove_authentication c a o res).1 = .ok () ↔ res.status = 201)
    ∧ ((package_add_collaborator c owner pkg collab res).1 = .ok () ↔ res.status = 201)
    ∧ ((package_remove_collaborator c owner pkg collab res).1 = .ok ()
        ↔ res.status = 201)
    ∧ ((remove_package c user pkg res).1 = .ok () ↔ res.status = 201)
    ∧ ((remove_release c user pkg ver res).1 = .ok () ↔ res.status = 201)
    ∧ (res.status = 200 → res.body ≠ JsonBody.jsonNonObject →
        (remove_authentication c a o res).1 = .error (.api ⟨.binstarError,
          errorMsg res, some 200⟩)
        ∧ (package_add_collaborator c owner pkg collab res).1
          = .error (.api ⟨.binstarError, errorMsg res, some 200⟩)
        ∧ (package_remove_collaborator c owner pkg collab res).1
          = .error (.api ⟨.binstarError, errorMsg res, some 200⟩)
        ∧ (remove_package c user pkg res).1
          = .error (.api ⟨.binstarError, errorMsg res, some 200⟩)
        ∧ (remove_release c user pkg ver res).1
          = .error (.api ⟨.binstarError, errorMsg res, some 200⟩))
    ∧ (res.status = 200 → res.body = JsonBody.jsonNonObject →
        (remove_package c user pkg res).1 = .error PyError.attributeError)
    ∧ ((package c owner pkg res body).1 = .ok body ↔ res.status = 200) := by
  have hpack : (package c owner pkg res body).1 = .ok body ↔ res.status = 200 := by
    by_cases h200 : res.status = 200
    · have hchk : (checkResponse c.token_warning_sent res [200]).1 = .ok () := by
        rw [checkResponse_fst, if_pos (by simp [h200])]
      simp [package, hchk, h200]
    · have hchk : (checkResponse c.token_warning_sent res [200]).1
          = .error (classifyFail res) := by
        rw [checkResponse_fst, if_neg (by simp [h200])]
      simp [package, hchk, h200]
  by_cases h201 : res.status = 201
  · have hchk : (checkResponse c.token_warning_sent res [201]).1 = .ok () :=
      (checkResponse_201 c.token_warning_sent res).1.mpr h201
    refine ⟨?_, ?_, ?_, ?_, ?_,
      fun h200 => absurd (h200.symm.trans h201) (by decide),
      fun h200 => absurd (h200.symm.trans h201) (by decide), hpack⟩
    · simp [remove_authentication, hchk, h201]
    · simp [package_add_collaborator, hchk, h201]
    · simp [package_remove_collaborator, hchk, h201]
    · simp [remove_package, hchk, h201]
    · simp [remove_release, hchk, h201]
  · have hchk : (checkResponse c.token_warning_sent res [201]).1
        = .error (classifyFail res) :=
      (checkResponse_201 c.token_warning_sent res).2 h201
    refine ⟨?_, ?_, ?_, ?_, ?_, ?_, ?_, hpack⟩
    · simp [remove_authentication, hchk, h201]
    · simp [package_add_collaborator, hchk, h201]
    · simp [package_remove_collaborator, hchk, h201]
    · simp [remove_package, hchk, h201]
    · simp [remove_release, hchk, h201]
    · intro h200 hb
      rw [classifyFail_not_nonObject res hb, h200] at hchk
      refine ⟨?_, ?_, ?_, ?_, ?_⟩ <;>
        simp [remove_authentication, package_add_collaborator,
          package_remove_collaborator, remove_package, remove_release, hchk, errCls]
    · intro h200 hb
      rw [classifyFail_nonObject res hb] at hchk
      simp [remove_package, hchk]

/-- Counterexample to claim C10: a 200 response whose body is valid JSON but
not an object makes `remove_package` crash with the uncaught line-215
`AttributeError` rather than raise the generic typed API error. -/
theorem remove_ops_nonobject_counterexample :
    (remove_package cC "u" "p" ⟨200, [], .jsonNonObject, "GET", "u"⟩).1
      = .error PyError.attributeError := by
  exact rfl

/-- Witness for the amended C10 at a concrete 200 response with a JSON
object body: `remove_package` succeeds only on 201, so the 200 response is
rejected with the generic typed error. -/
theorem remove_ops_allowed_201_witness :
    (remove_package cC "u" "p" ⟨200, [], .jsonObject (some "no"), "GET", "u"⟩).1
      = .error (.api ⟨.binstarError, "no", some 200⟩) :=
  ((remove_ops_allowed_201 cC none none "o" "p" "c" "u" "v"
    ⟨200, [], .jsonObject (some "no"), "GET", "u"⟩ "b").2.2.2.2.2.1 rfl
    (by decide)).2.2.2.1

end BinstarClient
